import Mathlib

/-!
Verification of the Austin 911 dashboard (austin_911_dashboard.py).

The dashboard's logic is shallowly embedded: pandas dataframes become lists
of records, pandas floats become exact rationals `ℚ`, `.round(2)` becomes
`round2` (round half to even at two decimal places, as numpy does), and the
Streamlit render pass of `main` becomes a function producing a list of
render events.
-/

set_option maxRecDepth 8192

/-- Round a rational to the nearest integer, ties to even (numpy rounding). -/
def roundHalfEven (q : ℚ) : ℤ :=
  let n := ⌊q⌋
  if q - n < 1/2 then n
  else if (1:ℚ)/2 < q - n then n + 1
  else if n % 2 = 0 then n else n + 1

/-- `round(x, 2)` of pandas/numpy: round half to even at two decimals. -/
def round2 (q : ℚ) : ℚ := (roundHalfEven (q * 100) : ℚ) / 100

/-- Arithmetic mean of a list of rationals (pandas `mean`). -/
def mean (xs : List ℚ) : ℚ := xs.sum / (xs.length : ℚ)

/-- Insert into a sorted list of rationals. -/
def insertLe (x : ℚ) : List ℚ → List ℚ
  | [] => [x]
  | y :: ys => if x ≤ y then x :: y :: ys else y :: insertLe x ys

/-- Sort a list of rationals ascending. -/
def sortLe (xs : List ℚ) : List ℚ := xs.foldr insertLe []

/-- pandas `median`: middle element of the sorted list, or the mean of the
two middle elements when the length is even. -/
def median (xs : List ℚ) : ℚ :=
  let s := sortLe xs
  if s.length % 2 = 1 then s.getD (s.length / 2) 0
  else (s.getD (s.length / 2 - 1) 0 + s.getD (s.length / 2) 0) / 2

/-- One row of `APD_911_Final_Processed.csv`: a single emergency call. -/
structure CallRecord where
  council_district : Nat
  response_time_sec : ℚ
  response_time_min : ℚ
  delayed : Bool
  is_hotspot : Bool
deriving DecidableEq, Repr

/-- One row of the output of `create_district_summary` after the column
renaming of lines 76-79 and the `delay_percentage` column of line 81. -/
structure SummaryRow where
  council_district : Nat
  avg_response_sec : ℚ
  median_response_sec : ℚ
  total_calls : Nat
  avg_response_min : ℚ
  total_delayed : Nat
  delay_rate : ℚ
  is_hotspot : Bool
  delay_percentage : ℚ
deriving DecidableEq, Repr

/-- The boolean `delayed` column viewed numerically (pandas treats the
boolean as 0/1 for `sum` and `mean`). -/
def delayedFlag (r : CallRecord) : ℚ := if r.delayed then 1 else 0

/-- The rows of one `groupby('council_district')` group. -/
def groupRows (df : List CallRecord) (d : Nat) : List CallRecord :=
  df.filter (fun r => r.council_district == d)

/-- The distinct district keys, ascending — `groupby` sorts group keys. -/
def districts (df : List CallRecord) : List Nat :=
  List.insertionSort (· ≤ ·) (df.map (·.council_district)).dedup

/-- The summary row of one district group: the `.agg` dictionary of lines
69-74 (`mean`/`median`/`count` of response time in seconds, `mean` of
response time in minutes, `sum`/`mean` of the delayed flag, `first` of the
hotspot flag), everything `.round(2)` (integer-valued columns unchanged),
then `delay_percentage = delay_rate * 100` (line 81). -/
def summarizeDistrict (df : List CallRecord) (d : Nat) : SummaryRow :=
  let g := groupRows df d
  let dr := round2 (mean (g.map delayedFlag))
  { council_district := d
    avg_response_sec := round2 (mean (g.map (·.response_time_sec)))
    median_response_sec := round2 (median (g.map (·.response_time_sec)))
    total_calls := g.length
    avg_response_min := round2 (mean (g.map (·.response_time_min)))
    total_delayed := (g.filter (·.delayed)).length
    delay_rate := dr
    is_hotspot := ((g.head?).map (·.is_hotspot)).getD false
    delay_percentage := dr * 100 }

/-- `create_district_summary` (lines 67-83): one summary row per distinct
council district present in the input. -/
def create_district_summary (df : List CallRecord) : List SummaryRow :=
  (districts df).map (summarizeDistrict df)

/-- Example input: 10 calls across two districts; district 1 has six calls
(three delayed), district 2 has four calls (none delayed). -/
def exampleC1 : List CallRecord :=
  [⟨1, 60, 1, true, true⟩, ⟨1, 120, 2, true, true⟩, ⟨1, 180, 3, true, true⟩,
   ⟨1, 240, 4, false, true⟩, ⟨1, 300, 5, false, true⟩, ⟨1, 360, 6, false, true⟩,
   ⟨2, 60, 1, false, false⟩, ⟨2, 60, 1, false, false⟩,
   ⟨2, 120, 2, false, false⟩, ⟨2, 120, 2, false, false⟩]

/-- Example input: three calls in one district, exactly one delayed. -/
def exampleC10 : List CallRecord :=
  [⟨1, 60, 1, true, false⟩, ⟨1, 60, 1, false, false⟩, ⟨1, 60, 1, false, false⟩]

theorem summary_length (df : List CallRecord) :
    (create_district_summary df).length = (df.map (·.council_district)).dedup.length := by
  unfold create_district_summary districts
  rw [List.length_map]
  exact (List.perm_insertionSort _ _).length_eq

theorem mem_summary {df : List CallRecord} {row : SummaryRow}
    (h : row ∈ create_district_summary df) :
    ∃ d, d ∈ districts df ∧ row = summarizeDistrict df d := by
  rcases List.mem_map.mp h with ⟨d, hd, hrow⟩
  exact ⟨d, hd, hrow.symm⟩

theorem districts_exampleC1 : districts exampleC1 = [1, 2] := by decide

theorem groupRows_exampleC1_1 :
    groupRows exampleC1 1 =
      [⟨1, 60, 1, true, true⟩, ⟨1, 120, 2, true, true⟩, ⟨1, 180, 3, true, true⟩,
       ⟨1, 240, 4, false, true⟩, ⟨1, 300, 5, false, true⟩, ⟨1, 360, 6, false, true⟩] := rfl

theorem groupRows_exampleC1_2 :
    groupRows exampleC1 2 =
      [⟨2, 60, 1, false, false⟩, ⟨2, 60, 1, false, false⟩,
       ⟨2, 120, 2, false, false⟩, ⟨2, 120, 2, false, false⟩] := rfl

theorem summarize_exampleC1_1 :
    summarizeDistrict exampleC1 1 = ⟨1, 210, 210, 6, 7/2, 3, 1/2, true, 50⟩ := by
  simp only [summarizeDistrict, groupRows_exampleC1_1]
  norm_num [mean, median, sortLe, insertLe, round2, roundHalfEven, delayedFlag,
    SummaryRow.mk.injEq, List.filter, List.head?]

theorem summarize_exampleC1_2 :
    summarizeDistrict exampleC1 2 = ⟨2, 90, 90, 4, 3/2, 0, 0, false, 0⟩ := by
  simp only [summarizeDistrict, groupRows_exampleC1_2]
  norm_num [mean, median, sortLe, insertLe, round2, roundHalfEven, delayedFlag,
    SummaryRow.mk.injEq, List.filter, List.head?]

theorem summary_exampleC1 :
    create_district_summary exampleC1 =
      [⟨1, 210, 210, 6, 7/2, 3, 1/2, true, 50⟩, ⟨2, 90, 90, 4, 3/2, 0, 0, false, 0⟩] := by
  unfold create_district_summary
  rw [districts_exampleC1]
  simp only [List.map_cons, List.map_nil, summarize_exampleC1_1, summarize_exampleC1_2]

/-- C1: for every input table the district summary has exactly one row per
distinct `council_district` value, each row's `total_calls` is the number of
input rows with that district; on the 10-call two-district example the two
rows carry `total_calls` 6 and 4, `delay_rate` 1/2 and 0, and
`delay_percentage` 50 and 0. -/
theorem create_district_summary_row_counts :
    (∀ df : List CallRecord,
      (create_district_summary df).length = (df.map (·.council_district)).dedup.length)
    ∧ (∀ df : List CallRecord, ∀ row ∈ create_district_summary df,
        row.total_calls = (groupRows df row.council_district).length)
    ∧ create_district_summary exampleC1 =
        [⟨1, 210, 210, 6, 7/2, 3, 1/2, true, 50⟩,
         ⟨2, 90, 90, 4, 3/2, 0, 0, false, 0⟩] := by
  refine ⟨summary_length, ?_, summary_exampleC1⟩
  intro df row hrow
  rcases mem_summary hrow with ⟨d, _, rfl⟩
  rfl

/-- C1 witness: the general parts of C1 evaluated on the concrete example. -/
theorem create_district_summary_row_counts_witness :
    (create_district_summary exampleC1).length =
      (exampleC1.map (·.council_district)).dedup.length
    ∧ ∀ row ∈ create_district_summary exampleC1,
        row.total_calls = (groupRows exampleC1 row.council_district).length :=
  ⟨create_district_summary_row_counts.1 exampleC1,
   fun row h => create_district_summary_row_counts.2.1 exampleC1 row h⟩

/-- C2: in every row of the district summary, `delay_percentage` equals
`delay_rate * 100`. -/
theorem delay_percentage_eq_rate_times_100 (df : List CallRecord)
    (row : SummaryRow) (h : row ∈ create_district_summary df) :
    row.delay_percentage = row.delay_rate * 100 := by
  rcases mem_summary h with ⟨d, _, rfl⟩
  rfl

/-- C2 witness: the identity at a concrete row of a concrete summary. -/
theorem delay_percentage_eq_rate_times_100_witness :
    (summarizeDistrict exampleC1 1).delay_percentage =
      (summarizeDistrict exampleC1 1).delay_rate * 100 :=
  delay_percentage_eq_rate_times_100 exampleC1 (summarizeDistrict exampleC1 1)
    (by unfold create_district_summary
        exact List.mem_map_of_mem _ (by decide))

theorem groupRows_exampleC10 :
    groupRows exampleC10 1 =
      [⟨1, 60, 1, true, false⟩, ⟨1, 60, 1, false, false⟩, ⟨1, 60, 1, false, false⟩] := rfl

theorem mean_delayed_exampleC10 :
    mean ((groupRows exampleC10 1).map delayedFlag) = 1/3 := by
  rw [groupRows_exampleC10]
  norm_num [mean, delayedFlag]

theorem delay_percentage_exampleC10 :
    (summarizeDistrict exampleC10 1).delay_percentage = 33 := by
  simp only [summarizeDistrict, mean_delayed_exampleC10]
  norm_num [round2, roundHalfEven]

/-- C10: every aggregated numeric column of a summary row is the `round2`
of the exact aggregate, and `delay_percentage` is the rounded delay rate
times 100; on a district with 1 delayed call out of 3 the exact rate times
100 is 100/3 while `delay_percentage` is 33. -/
theorem summary_rounding :
    (∀ df : List CallRecord, ∀ row ∈ create_district_summary df,
      row.avg_response_sec =
        round2 (mean ((groupRows df row.council_district).map (·.response_time_sec)))
      ∧ row.median_response_sec =
        round2 (median ((groupRows df row.council_district).map (·.response_time_sec)))
      ∧ row.avg_response_min =
        round2 (mean ((groupRows df row.council_district).map (·.response_time_min)))
      ∧ row.delay_rate =
        round2 (mean ((groupRows df row.council_district).map delayedFlag))
      ∧ row.delay_percentage =
        round2 (mean ((groupRows df row.council_district).map delayedFlag)) * 100)
    ∧ mean ((groupRows exampleC10 1).map delayedFlag) * 100 = 100/3
    ∧ (summarizeDistrict exampleC10 1).delay_percentage = 33
    ∧ (summarizeDistrict exampleC10 1).delay_percentage ≠
        mean ((groupRows exampleC10 1).map delayedFlag) * 100 := by
  refine ⟨?_, by rw [mean_delayed_exampleC10]; norm_num,
    delay_percentage_exampleC10,
    by rw [delay_percentage_exampleC10, mean_delayed_exampleC10]; norm_num⟩
  intro df row hrow
  rcases mem_summary hrow with ⟨d, _, rfl⟩
  exact ⟨rfl, rfl, rfl, rfl, rfl⟩

/-- C10 witness: the general part of C10 evaluated at the concrete example. -/
theorem summary_rounding_witness :
    (summarizeDistrict exampleC10 1).delay_rate =
      round2 (mean ((groupRows exampleC10 1).map delayedFlag)) :=
  (summary_rounding.1 exampleC10 (summarizeDistrict exampleC10 1)
    (by unfold create_district_summary
        exact List.mem_map_of_mem _ (by decide))).2.2.2.1

/-- One row of `DBSCAN_Anomalies.csv`: an anomalous (district, hour) slice. -/
structure AnomalyRecord where
  district : Nat
  hour : Nat
  delay_rate : ℚ
  avg_response_min : ℚ
deriving DecidableEq, Repr

/-- Distinct values, ascending — the index and column order of a pandas
pivot table. -/
def natSortedDedup (l : List Nat) : List Nat :=
  List.insertionSort (· ≤ ·) l.dedup

/-- The row labels (districts) of the pivot of `create_anomaly_heatmap`. -/
def pivotDistricts (an : List AnomalyRecord) : List Nat :=
  natSortedDedup (an.map (·.district))

/-- The column labels (hours) of the pivot of `create_anomaly_heatmap`. -/
def pivotHours (an : List AnomalyRecord) : List Nat :=
  natSortedDedup (an.map (·.hour))

/-- One cell of the `pivot_table` of lines 132-137: the mean `delay_rate`
over the rows with this district and hour, or the `fill_value` 0 when no
such row exists. -/
def pivotCell (an : List AnomalyRecord) (d h : Nat) : ℚ :=
  let hits := an.filter (fun r => r.district == d && r.hour == h)
  if hits.isEmpty then 0 else mean (hits.map (·.delay_rate))

/-- The heatmap grid of `create_anomaly_heatmap` (lines 129-147): one row
per observed district, one cell per observed hour. -/
def create_anomaly_heatmap (an : List AnomalyRecord) :
    List (Nat × List (Nat × ℚ)) :=
  (pivotDistricts an).map (fun d => (d, (pivotHours an).map (fun h => (h, pivotCell an d h))))

theorem mean_of_all_eq {xs : List ℚ} {c : ℚ} (hne : xs ≠ [])
    (h : ∀ x ∈ xs, x = c) : mean xs = c := by
  have hrep : xs = List.replicate xs.length c := List.eq_replicate_iff.mpr ⟨rfl, h⟩
  have h0 : xs.length ≠ 0 := by
    intro h0
    exact hne (List.length_eq_zero.mp h0)
  have hlen : (xs.length : ℚ) ≠ 0 := Nat.cast_ne_zero.mpr h0
  rw [mean, hrep]
  simp only [List.sum_replicate, List.length_replicate, nsmul_eq_mul]
  rw [hrep] at hlen
  simp only [List.length_replicate] at hlen
  field_simp

/-- Example anomaly table: three (district, hour) slices, one combination
of the observed labels absent. -/
def exampleC5 : List AnomalyRecord :=
  [⟨1, 3, 1/2, 10⟩, ⟨1, 5, 1/4, 12⟩, ⟨2, 3, 3/4, 9⟩]

/-- C5: when every (district, hour) pair occurs at most once, the heatmap
grid has one row per observed district and one cell per observed hour, a
cell holds the `delay_rate` of the matching input row when one exists, and
0 when no input row has that district and hour. -/
theorem create_anomaly_heatmap_cells (an : List AnomalyRecord)
    (huniq : an.Pairwise fun a b => ¬(a.district = b.district ∧ a.hour = b.hour)) :
    ((create_anomaly_heatmap an).map Prod.fst = pivotDistricts an)
    ∧ (∀ p ∈ create_anomaly_heatmap an,
        p.2 = (pivotHours an).map fun h => (h, pivotCell an p.1 h))
    ∧ (∀ r ∈ an, pivotCell an r.district r.hour = r.delay_rate)
    ∧ (∀ d h, (∀ r ∈ an, r.district ≠ d ∨ r.hour ≠ h) → pivotCell an d h = 0) := by
  refine ⟨?_, ?_, ?_, ?_⟩
  · unfold create_anomaly_heatmap
    simp [Function.comp_def]
  · intro p hp
    rcases List.mem_map.mp hp with ⟨d, _, rfl⟩
    rfl
  · intro r hr
    have hsymm : ∀ a b : AnomalyRecord,
        ¬(a.district = b.district ∧ a.hour = b.hour) →
        ¬(b.district = a.district ∧ b.hour = a.hour) := by
      intro a b hab ⟨h1, h2⟩
      exact hab ⟨h1.symm, h2.symm⟩
    have hfor := List.Pairwise.forall hsymm huniq
    unfold pivotCell
    have hrmem : r ∈ an.filter (fun s => s.district == r.district && s.hour == r.hour) := by
      rw [List.mem_filter]
      exact ⟨hr, by simp⟩
    have hne : an.filter (fun s => s.district == r.district && s.hour == r.hour) ≠ [] :=
      List.ne_nil_of_mem hrmem
    have hempty : (an.filter (fun s => s.district == r.district && s.hour == r.hour)).isEmpty = false := by
      cases hfilter : an.filter (fun s => s.district == r.district && s.hour == r.hour) with
      | nil => exact absurd hfilter hne
      | cons a as => rfl
    simp only [hempty, Bool.false_eq_true, if_false]
    apply mean_of_all_eq
    · intro hmapnil
      exact hne (List.map_eq_nil_iff.mp hmapnil)
    · intro x hx
      rcases List.mem_map.mp hx with ⟨s, hs, rfl⟩
      rcases List.mem_filter.mp hs with ⟨hsan, hcond⟩
      simp only [Bool.and_eq_true, beq_iff_eq] at hcond
      by_cases hsr : s = r
      · rw [hsr]
      · exact absurd ⟨hcond.1, hcond.2⟩ (hfor hsan hr hsr)
  · intro d h habs
    unfold pivotCell
    have hnil : an.filter (fun r => r.district == d && r.hour == h) = [] := by
      rw [List.filter_eq_nil_iff]
      intro r hr
      rcases habs r hr with hd | hh
      · simp [hd]
      · simp [hh]
    simp [hnil]

/-- C5 witness: the heatmap property at a concrete anomaly table with an
absent (district, hour) combination. -/
theorem create_anomaly_heatmap_cells_witness :
    (∀ r ∈ exampleC5, pivotCell exampleC5 r.district r.hour = r.delay_rate)
    ∧ pivotCell exampleC5 2 5 = 0 := by
  have h := create_anomaly_heatmap_cells exampleC5 (by decide)
  exact ⟨h.2.2.1, h.2.2.2 2 5 (by decide)⟩

/-- One bar of the plotly bar charts: x position (district), height
(average response minutes) and discrete color. -/
structure Bar where
  x : Nat
  height : ℚ
  color : String
deriving DecidableEq, Repr

/-- The renderable description produced by the bar-chart builders. -/
structure BarChart where
  bars : List Bar
  title : String
  xaxis_title : String
  yaxis_title : String
  fig_height : Nat
deriving DecidableEq, Repr

/-- The `color_discrete_map` of lines 92 and 111: red for hotspots, blue
otherwise. -/
def hotspotColor (h : Bool) : String := if h then "#d62728" else "#1f77b4"

/-- Sort key of `sort_values('avg_response_min')`. -/
def byAvg (a b : SummaryRow) : Prop := a.avg_response_min ≤ b.avg_response_min

instance : DecidableRel byAvg :=
  fun a b => inferInstanceAs (Decidable (a.avg_response_min ≤ b.avg_response_min))

instance : IsTotal SummaryRow byAvg :=
  ⟨fun a b => le_total a.avg_response_min b.avg_response_min⟩

instance : IsTrans SummaryRow byAvg := ⟨fun _ _ _ hab hbc => le_trans hab hbc⟩

/-- `district_summary.sort_values('avg_response_min')` (ascending). -/
def sortByAvg (ds : List SummaryRow) : List SummaryRow :=
  List.insertionSort byAvg ds

/-- The bar drawn for one summary row: x is the district, height the
average response minutes, color keyed by the hotspot flag. -/
def mkBar (r : SummaryRow) : Bar :=
  ⟨r.council_district, r.avg_response_min, hotspotColor r.is_hotspot⟩

/-- `create_district_bar_chart` (lines 104-127). -/
def create_district_bar_chart (ds : List SummaryRow) : BarChart :=
  { bars := (sortByAvg ds).map mkBar
    title := "Average Response Time by Council District"
    xaxis_title := "Council District"
    yaxis_title := "Average Response Time (minutes)"
    fig_height := 500 }

/-- `create_choropleth_map` (lines 85-102): the same bar chart with a
different title and figure height. -/
def create_choropleth_map (ds : List SummaryRow) : BarChart :=
  { bars := (sortByAvg ds).map mkBar
    title := "Average Response Time by Council District (Hotspots in Red)"
    xaxis_title := "Council District"
    yaxis_title := "Average Response Time (minutes)"
    fig_height := 600 }

/-- C8: the district bar chart has one bar per summary row; the bars are a
permutation of the rows mapped to (district, average response minutes,
hotspot color); bar heights are ascending; every bar uses one of the two
fixed colors. -/
theorem create_district_bar_chart_shape (ds : List SummaryRow) :
    (create_district_bar_chart ds).bars.length = ds.length
    ∧ (create_district_bar_chart ds).bars.Perm (ds.map mkBar)
    ∧ List.Sorted (· ≤ ·) ((create_district_bar_chart ds).bars.map (·.height))
    ∧ (∀ b ∈ (create_district_bar_chart ds).bars,
        b.color = "#d62728" ∨ b.color = "#1f77b4")
    ∧ (create_choropleth_map ds).bars = (create_district_bar_chart ds).bars := by
  have hperm : (sortByAvg ds).Perm ds := List.perm_insertionSort byAvg ds
  refine ⟨?_, hperm.map mkBar, ?_, ?_, rfl⟩
  · simp only [create_district_bar_chart, List.length_map]
    exact hperm.length_eq
  · have hsorted : List.Sorted byAvg (sortByAvg ds) :=
      List.sorted_insertionSort byAvg ds
    show List.Sorted (· ≤ ·) (((sortByAvg ds).map mkBar).map (·.height))
    rw [List.map_map]
    exact List.pairwise_map.mpr hsorted
  · intro b hb
    rcases List.mem_map.mp hb with ⟨r, _, rfl⟩
    unfold mkBar hotspotColor
    cases r.is_hotspot
    · right; rfl
    · left; rfl

/-- C8 witness: the bar-chart shape property at the concrete example
summary. -/
theorem create_district_bar_chart_shape_witness :
    (create_district_bar_chart (create_district_summary exampleC1)).bars.length =
        (create_district_summary exampleC1).length
    ∧ (create_district_bar_chart (create_district_summary exampleC1)).bars.Perm
        ((create_district_summary exampleC1).map mkBar)
    ∧ List.Sorted (· ≤ ·)
        ((create_district_bar_chart (create_district_summary exampleC1)).bars.map (·.height))
    ∧ (∀ b ∈ (create_district_bar_chart (create_district_summary exampleC1)).bars,
        b.color = "#d62728" ∨ b.color = "#1f77b4")
    ∧ (create_choropleth_map (create_district_summary exampleC1)).bars =
        (create_district_bar_chart (create_district_summary exampleC1)).bars :=
  create_district_bar_chart_shape (create_district_summary exampleC1)

/-- The per-district detail entry of `anomaly_summary['detailed_analysis']`. -/
structure DistrictDetail where
  anomalous_hours : Nat
  avg_response : ℚ
  avg_delay_rate : ℚ
  worst_hours : List (Nat × ℚ)
deriving DecidableEq, Repr

/-- The deserialized `anomaly_summary.pkl` object. -/
structure AnomalySummary where
  district_rankings : List (Nat × ℚ)
  top_3_districts : List Nat
  detailed_analysis : Nat → DistrictDetail

/-- The load outcome of each of the three on-disk artifacts: `some` when
the file reads and parses, `none` when the read raises. -/
structure FileStore where
  primary : Option (List CallRecord)
  anomalies : Option (List AnomalyRecord)
  summary_pkl : Option AnomalySummary

/-- `load_data` (lines 35-60): the three reads run in order inside one
`try`; the first raise is caught and the whole triple becomes `None`. -/
def load_data (fs : FileStore) :
    Option (List CallRecord) × Option (List AnomalyRecord) × Option AnomalySummary :=
  match fs.primary with
  | none => (none, none, none)
  | some df =>
    match fs.anomalies with
    | none => (none, none, none)
    | some an =>
      match fs.summary_pkl with
      | none => (none, none, none)
      | some asum => (some df, some an, some asum)

/-- C9: `load_data` returns either three non-null components or the triple
(None, None, None); a failure of any one artifact makes all three
unavailable. -/
theorem load_data_all_or_nothing (fs : FileStore) :
    load_data fs = (none, none, none)
    ∨ ∃ df an asum, load_data fs = (some df, some an, some asum) := by
  rcases fs with ⟨_ | df, _ | an, _ | asum⟩ <;>
    first
      | exact Or.inl rfl
      | exact Or.inr ⟨_, _, _, rfl⟩

/-- C9 witness: both shapes realized on concrete file stores. -/
theorem load_data_all_or_nothing_witness :
    (load_data ⟨some exampleC1, none, none⟩ = (none, none, none)
      ∨ ∃ df an asum,
          load_data ⟨some exampleC1, none, none⟩ = (some df, some an, some asum)) :=
  load_data_all_or_nothing ⟨some exampleC1, none, none⟩

/-- `total_calls = len(df)` (line 180). -/
def total_calls_metric (df : List CallRecord) : Nat := df.length

/-- `avg_response = district_summary['avg_response_min'].mean()`
(line 181): the unweighted mean over districts. -/
def avg_response_metric (ds : List SummaryRow) : ℚ :=
  mean (ds.map (·.avg_response_min))

/-- `hotspot_districts` (line 182): districts of the summary rows whose
hotspot flag is set. -/
def hotspot_districts (ds : List SummaryRow) : List Nat :=
  (ds.filter (·.is_hotspot)).map (·.council_district)

/-- `overall_delay_rate = df['delayed'].mean() * 100` (line 183). -/
def overall_delay_rate_metric (df : List CallRecord) : ℚ :=
  mean (df.map delayedFlag) * 100

/-- `district_summary['avg_response_min'].idxmax()` then `.loc` (line
223): the first row attaining the maximal average response minutes. -/
def idxmaxRow (rows : List SummaryRow) : Option SummaryRow :=
  rows.foldl (fun acc r =>
    match acc with
    | none => some r
    | some b => if b.avg_response_min < r.avg_response_min then some r else some b) none

/-- `district_summary['avg_response_min'].idxmin()` then `.loc` (line
224): the first row attaining the minimal average response minutes. -/
def idxminRow (rows : List SummaryRow) : Option SummaryRow :=
  rows.foldl (fun acc r =>
    match acc with
    | none => some r
    | some b => if r.avg_response_min < b.avg_response_min then some r else some b) none

/-- Sort key of `sort_values('avg_response_min', ascending=False)`. -/
def byAvgGe (a b : SummaryRow) : Prop := b.avg_response_min ≤ a.avg_response_min

instance : DecidableRel byAvgGe :=
  fun a b => inferInstanceAs (Decidable (b.avg_response_min ≤ a.avg_response_min))

/-- The display table of line 212, sorted descending. -/
def sortByAvgDesc (ds : List SummaryRow) : List SummaryRow :=
  List.insertionSort byAvgGe ds

/-- One user-visible render action of the Streamlit pass of `main`. -/
inductive Ev where
  | header
  | errorBox (msg : String)
  | sidebarInfo (total : Nat) (numDistricts : Nat)
  | summarize (rows : List SummaryRow)
  | tab1Header
  | metricsRow (total : Nat) (avg : ℚ) (numHotspots : Nat) (delayPct : ℚ)
  | chart (c : BarChart)
  | summaryTable (rows : List SummaryRow)
  | findings (slowest : Option SummaryRow) (fastest : Option SummaryRow) (hot : List Nat)
  | tab2Header
  | anomalyMetrics (n : Nat) (affected : Nat) (avgResp : ℚ) (avgDelayPct : ℚ)
  | rankingsTable (t : List (Nat × ℚ))
  | heatmap (g : List (Nat × List (Nat × ℚ)))
  | districtDetail (d : Nat) (det : DistrictDetail)
  | insights (primaryHotspot : Option Nat) (topMl : Option Nat) (mlDelayRate : ℚ)
  | footer
deriving DecidableEq, Repr

/-- The error text of line 160. -/
def loadErrorMsg : String :=
  "Unable to load data files. Please ensure all required files are in the correct directory."

/-- The error text of line 245. -/
def anomalyErrorMsg : String := "ML anomaly data not available."

/-- Is this event an error indication (`st.error`)? -/
def isErrorBox : Ev → Bool
  | Ev.errorBox _ => true
  | _ => false

/-- The render actions of the `with tab1:` block (lines 173-238). -/
def tab1Events (df : List CallRecord) (ds : List SummaryRow) : List Ev :=
  [Ev.tab1Header,
   Ev.metricsRow (total_calls_metric df) (avg_response_metric ds)
     (hotspot_districts ds).length (overall_delay_rate_metric df),
   Ev.chart (create_choropleth_map ds),
   Ev.summaryTable (sortByAvgDesc ds),
   Ev.findings (idxmaxRow ds) (idxminRow ds) (hotspot_districts ds)]

/-- The render actions of the `with tab2:` block past its guard (lines
248-321). -/
def tab2Events (an : List AnomalyRecord) (asum : AnomalySummary) (hot : List Nat) : List Ev :=
  [Ev.tab2Header,
   Ev.anomalyMetrics an.length (an.map (·.district)).dedup.length
     (mean (an.map (·.avg_response_min))) (mean (an.map (·.delay_rate)) * 100),
   Ev.rankingsTable asum.district_rankings,
   Ev.heatmap (create_anomaly_heatmap an)]
  ++ asum.top_3_districts.map (fun d => Ev.districtDetail d (asum.detailed_analysis d))
  ++ [Ev.insights hot.head? asum.top_3_districts.head?
        (asum.detailed_analysis (asum.top_3_districts.headD 0)).avg_delay_rate]

/-- The render pass of `main` (lines 149-326) applied to the triple that
`load_data` returned: the header; then, if the primary table is null, one
error and nothing else (lines 159-161); otherwise the sidebar, the district
summary, the first tab, then either the guarded second tab followed by the
footer, or one error and an early `return` that skips the footer (lines
244-246). -/
def mainRender (df? : Option (List CallRecord)) (an? : Option (List AnomalyRecord))
    (asum? : Option AnomalySummary) : List Ev :=
  match df? with
  | none => [Ev.header, Ev.errorBox loadErrorMsg]
  | some df =>
    let ds := create_district_summary df
    [Ev.header, Ev.sidebarInfo df.length (districts df).length, Ev.summarize ds]
    ++ tab1Events df ds
    ++ match an?, asum? with
       | some an, some asum => tab2Events an asum (hotspot_districts ds) ++ [Ev.footer]
       | _, _ => [Ev.errorBox anomalyErrorMsg]

/-- C3: when the loader returned the null marker for the primary table, the
render pass is the header plus exactly one error indication: the summarizer
is never invoked and no tab and no footer is rendered. -/
theorem main_halts_without_primary (an? : Option (List AnomalyRecord))
    (asum? : Option AnomalySummary) :
    mainRender none an? asum? = [Ev.header, Ev.errorBox loadErrorMsg]
    ∧ (mainRender none an? asum?).countP isErrorBox = 1
    ∧ (∀ ds, Ev.summarize ds ∉ mainRender none an? asum?)
    ∧ Ev.tab1Header ∉ mainRender none an? asum?
    ∧ Ev.tab2Header ∉ mainRender none an? asum?
    ∧ Ev.footer ∉ mainRender none an? asum? := by
  refine ⟨rfl, rfl, ?_, ?_, ?_, ?_⟩ <;> simp [mainRender]

/-- C3 witness: the halt shape at concrete loader output. -/
theorem main_halts_without_primary_witness :
    mainRender none none none = [Ev.header, Ev.errorBox loadErrorMsg]
    ∧ Ev.footer ∉ mainRender none none none :=
  ⟨(main_halts_without_primary none none).1,
   (main_halts_without_primary none none).2.2.2.2.2⟩

/-- A concrete per-district detail entry. -/
def exampleDetail : DistrictDetail := ⟨4, 10, 1/2, [(3, 1/2)]⟩

/-- A concrete anomaly summary object. -/
def exampleAsum : AnomalySummary := ⟨[(1, 3/4)], [1, 2, 3], fun _ => exampleDetail⟩

/-- C4 counterexample: with the primary table loaded, the footer is
rendered when the anomaly artifacts are present but NOT when they are
missing — the anomaly guard returns from the whole render pass, so the
footer is not "unaffected" as the claim states. -/
theorem anomaly_guard_skips_footer_cex :
    Ev.footer ∈ mainRender (some exampleC1) (some exampleC5) (some exampleAsum)
    ∧ Ev.footer ∉ mainRender (some exampleC1) none none
    ∧ Ev.errorBox anomalyErrorMsg ∈ mainRender (some exampleC1) none none := by
  refine ⟨?_, ?_, ?_⟩
  · simp [mainRender, tab2Events]
  · simp [mainRender, tab1Events]
  · simp [mainRender, tab1Events]

/-- C4 amended: when the anomaly artifacts are unavailable but the primary
table is loaded, the first tab renders and the second tab is replaced by
exactly one error indication, but the early `return` also skips the
footer. -/
theorem anomaly_guard_narrow_halt (df : List CallRecord)
    (an? : Option (List AnomalyRecord)) (asum? : Option AnomalySummary)
    (h : an? = none ∨ asum? = none) :
    Ev.tab1Header ∈ mainRender (some df) an? asum?
    ∧ Ev.errorBox anomalyErrorMsg ∈ mainRender (some df) an? asum?
    ∧ Ev.tab2Header ∉ mainRender (some df) an? asum?
    ∧ Ev.footer ∉ mainRender (some df) an? asum?
    ∧ (mainRender (some df) an? asum?).countP isErrorBox = 1 := by
  rcases h with rfl | rfl
  · cases asum? <;>
      · refine ⟨?_, ?_, ?_, ?_, ?_⟩ <;>
          simp [mainRender, tab1Events, isErrorBox, List.countP_append, List.countP_cons]
  · cases an? <;>
      · refine ⟨?_, ?_, ?_, ?_, ?_⟩ <;>
          simp [mainRender, tab1Events, isErrorBox, List.countP_append, List.countP_cons]

/-- C4 amended witness: the narrow halt at concrete loader output. -/
theorem anomaly_guard_narrow_halt_witness :
    Ev.tab1Header ∈ mainRender (some exampleC10) none none
    ∧ Ev.errorBox anomalyErrorMsg ∈ mainRender (some exampleC10) none none
    ∧ Ev.tab2Header ∉ mainRender (some exampleC10) none none
    ∧ Ev.footer ∉ mainRender (some exampleC10) none none
    ∧ (mainRender (some exampleC10) none none).countP isErrorBox = 1 :=
  anomaly_guard_narrow_halt exampleC10 none none (Or.inl rfl)

/-- Example input where the per-district mean of means differs from the
per-call mean: district 1 has calls of 1 and 3 minutes, district 2 one call
of 4 minutes. -/
def exampleC6 : List CallRecord :=
  [⟨1, 60, 1, true, true⟩, ⟨1, 180, 3, false, true⟩, ⟨2, 240, 4, false, false⟩]

theorem groupRows_exampleC6_1 :
    groupRows exampleC6 1 = [⟨1, 60, 1, true, true⟩, ⟨1, 180, 3, false, true⟩] := rfl

theorem groupRows_exampleC6_2 :
    groupRows exampleC6 2 = [⟨2, 240, 4, false, false⟩] := rfl

theorem summarize_exampleC6_1 :
    summarizeDistrict exampleC6 1 = ⟨1, 120, 120, 2, 2, 1, 1/2, true, 50⟩ := by
  simp only [summarizeDistrict, groupRows_exampleC6_1]
  norm_num [mean, median, sortLe, insertLe, round2, roundHalfEven, delayedFlag,
    SummaryRow.mk.injEq, List.filter, List.head?]

theorem summarize_exampleC6_2 :
    summarizeDistrict exampleC6 2 = ⟨2, 240, 240, 1, 4, 0, 0, false, 0⟩ := by
  simp only [summarizeDistrict, groupRows_exampleC6_2]
  norm_num [mean, median, sortLe, insertLe, round2, roundHalfEven, delayedFlag,
    SummaryRow.mk.injEq, List.filter, List.head?]

theorem summary_exampleC6 :
    create_district_summary exampleC6 =
      [⟨1, 120, 120, 2, 2, 1, 1/2, true, 50⟩, ⟨2, 240, 240, 1, 4, 0, 0, false, 0⟩] := by
  unfold create_district_summary
  have hd : districts exampleC6 = [1, 2] := by decide
  rw [hd]
  simp only [List.map_cons, List.map_nil, summarize_exampleC6_1, summarize_exampleC6_2]

/-- C6: the four scalar metrics of the first tab are the row count of the
input, the unweighted mean over districts of `avg_response_min`, the count
of hotspot rows, and the per-call delayed mean times 100; on a concrete
input the district mean (3) differs from the per-call mean (8/3), showing
the metric really is the district mean. -/
theorem tab1_metric_definitions :
    (∀ (df : List CallRecord) (an? : Option (List AnomalyRecord))
        (asum? : Option AnomalySummary),
      Ev.metricsRow (total_calls_metric df)
        (avg_response_metric (create_district_summary df))
        (hotspot_districts (create_district_summary df)).length
        (overall_delay_rate_metric df)
        ∈ mainRender (some df) an? asum?)
    ∧ total_calls_metric exampleC6 = 3
    ∧ avg_response_metric (create_district_summary exampleC6) = 3
    ∧ mean (exampleC6.map (·.response_time_min)) = 8/3
    ∧ avg_response_metric (create_district_summary exampleC6) ≠
        mean (exampleC6.map (·.response_time_min))
    ∧ (hotspot_districts (create_district_summary exampleC6)).length = 1
    ∧ overall_delay_rate_metric exampleC6 = 100/3 := by
  refine ⟨?_, rfl, ?_, ?_, ?_, ?_, ?_⟩
  · intro df an? asum?
    simp [mainRender, tab1Events]
  · rw [summary_exampleC6]
    norm_num [avg_response_metric, mean]
  · norm_num [mean, exampleC6]
  · rw [summary_exampleC6]
    norm_num [avg_response_metric, mean, exampleC6]
  · rw [summary_exampleC6]
    rfl
  · norm_num [overall_delay_rate_metric, mean, delayedFlag, exampleC6]

theorem dedup_of_all_eq {l : List Nat} {c : Nat} (hne : l ≠ [])
    (h : ∀ x ∈ l, x = c) : l.dedup = [c] := by
  induction l with
  | nil => exact absurd rfl hne
  | cons a t ih =>
    have ha : a = c := h a (List.mem_cons_self a t)
    cases t with
    | nil => rw [ha]; rfl
    | cons b t2 =>
      have ht : (b :: t2).dedup = [c] :=
        ih (List.cons_ne_nil b t2) (fun x hx => h x (List.mem_cons_of_mem a hx))
      have hb : b = c := h b (List.mem_cons_of_mem a (List.mem_cons_self b t2))
      have hmem : a ∈ b :: t2 := by
        rw [ha, ← hb]
        exact List.mem_cons_self b t2
      rw [List.dedup_cons_of_mem hmem, ht]

theorem districts_single {df : List CallRecord} {c : Nat} (hne : df ≠ [])
    (h : ∀ r ∈ df, r.council_district = c) : districts df = [c] := by
  unfold districts
  have hmap : (df.map (·.council_district)).dedup = [c] := by
    apply dedup_of_all_eq
    · intro hmapnil
      exact hne (List.map_eq_nil_iff.mp hmapnil)
    · intro x hx
      rcases List.mem_map.mp hx with ⟨r, hr, rfl⟩
      exact h r hr
  rw [hmap]
  rfl

/-- C7: when every call of a nonempty input shares one district, the
slowest-district and fastest-district lookups return the same summary row,
so both narrations name that district with identical `avg_response_min` and
`delay_percentage`. -/
theorem single_district_slowest_eq_fastest (df : List CallRecord) (c : Nat)
    (hne : df ≠ []) (hall : ∀ r ∈ df, r.council_district = c) :
    ∃ row, idxmaxRow (create_district_summary df) = some row
      ∧ idxminRow (create_district_summary df) = some row
      ∧ row.council_district = c
      ∧ (idxmaxRow (create_district_summary df)).map (·.avg_response_min) =
          (idxminRow (create_district_summary df)).map (·.avg_response_min)
      ∧ (idxmaxRow (create_district_summary df)).map (·.delay_percentage) =
          (idxminRow (create_district_summary df)).map (·.delay_percentage) := by
  have hd := districts_single hne hall
  have hsum : create_district_summary df = [summarizeDistrict df c] := by
    unfold create_district_summary
    rw [hd]
    rfl
  rw [hsum]
  exact ⟨summarizeDistrict df c, rfl, rfl, rfl, rfl, rfl⟩

/-- Example input with a single district (5). -/
def exampleC7 : List CallRecord :=
  [⟨5, 120, 2, false, false⟩, ⟨5, 240, 4, true, false⟩]

/-- C7 witness: the single-district property at a concrete input. -/
theorem single_district_slowest_eq_fastest_witness :
    ∃ row, idxmaxRow (create_district_summary exampleC7) = some row
      ∧ idxminRow (create_district_summary exampleC7) = some row
      ∧ row.council_district = 5
      ∧ (idxmaxRow (create_district_summary exampleC7)).map (·.avg_response_min) =
          (idxminRow (create_district_summary exampleC7)).map (·.avg_response_min)
      ∧ (idxmaxRow (create_district_summary exampleC7)).map (·.delay_percentage) =
          (idxminRow (create_district_summary exampleC7)).map (·.delay_percentage) :=
  single_district_slowest_eq_fastest exampleC7 5 (by decide) (by decide)
